import Mathlib

/-!
# Verification of the svelte channel-store replication layer

Shallow embedding of `src/index.ts`: a Primary endpoint replicating a single
mutable value to Replica endpoints over message ports, with pluggable
encode/decode, subscription fan-out, reference-counted replica interest and
transferable-buffer extraction.

Ports are modelled by natural-number identities.  Messages posted on a port
are collected as explicit `Send` records (the effect of `port.postMessage`).
The wrapped svelte store is modelled by its current value (its `set` is a
plain field update; `get` reads the field), as the spec treats the reactive
container as an external collaborator.
-/

/-- Model of a JavaScript runtime value as it travels through the channel.
`abuf b` is an `ArrayBuffer` with identity `b`; `view b` is a typed-array
view over a buffer (in JS `typeof view === 'object'` and `Array.isArray`
is false, and its enumerable properties are its numeric elements, so the
transferable scanner finds no buffers inside it — it is not itself an
`ArrayBuffer` instance).  `obj` keeps the field values in enumeration
order; field names play no role in any behaviour modelled here. -/
inductive JValue where
  | str : String → JValue
  | num : Int → JValue
  | boolean : Bool → JValue
  | jnull : JValue
  | undef : JValue
  | abuf : Nat → JValue
  | view : Nat → JValue
  | arr : List JValue → JValue
  | obj : List JValue → JValue
deriving Repr, Inhabited

mutual

/-- `getTransferables` from `src/index.ts`: pushes the value itself when it
is literally an `ArrayBuffer`, recurses through arrays and through the
enumerable values of plain objects, and ignores everything else. -/
def getTransferables : JValue → List Nat
  | .abuf b => [b]
  | .arr xs => getTransferablesList xs
  | .obj fields => getTransferablesList fields
  | _ => []

/-- The `for` loops of `getTransferables`: concatenation of the recursive
results over the elements, in order. -/
def getTransferablesList : List JValue → List Nat
  | [] => []
  | x :: xs => getTransferables x ++ getTransferablesList xs

end

mutual

/-- Spec-side: all nodes of a payload tree in depth-first (preorder)
traversal order. -/
def dfNodes : JValue → List JValue
  | .arr xs => .arr xs :: dfNodesList xs
  | .obj fields => .obj fields :: dfNodesList fields
  | v => [v]

/-- Depth-first node lists of a forest, concatenated in order. -/
def dfNodesList : List JValue → List JValue
  | [] => []
  | x :: xs => dfNodes x ++ dfNodesList xs

end

/-- Spec-side: the buffer identity of a value that is literally an
`ArrayBuffer` instance, and `none` for every other value. -/
def bufferOf : JValue → Option Nat
  | .abuf b => some b
  | _ => none

/-- The wire envelope `ChannelMessage`: store id, message type tag (a string
in the source, with unknown tags handled by a default branch), and an
optional payload. -/
structure ChannelMessage where
  id : String
  type : String
  payload : Option JValue
deriving Repr

/-- One `port.postMessage(message, transfer)` call: the target port, the
posted envelope and the transfer list passed alongside it. -/
structure Send where
  port : Nat
  message : ChannelMessage
  transfer : List Nat
deriving Repr

/-- `ChannelStoreOptions`: the optional `encode`/`decode` codec hooks. -/
structure ChannelStoreOptions where
  encode : Option (JValue → JValue)
  decode : Option (JValue → JValue)

/-- `BaseStore.decodePayload`: apply `options.decode` when configured,
identity otherwise. -/
def decodePayload (opts : ChannelStoreOptions) (payload : JValue) : JValue :=
  match opts.decode with
  | some d => d payload
  | none => payload

/-- `BaseStore.encodePayload`: apply `options.encode` when configured,
identity otherwise. -/
def encodePayload (opts : ChannelStoreOptions) (value : JValue) : JValue :=
  match opts.encode with
  | some e => e value
  | none => value

/-- The send loop of `BaseStore.sendPayload`: posts the same `set` envelope
to each port in order, passing `transfer` only together with the final
index (`i == ports.length - 1`) and an empty transfer list to every
earlier port. -/
def sendLoop (id : String) (payload : JValue) (transfer : List Nat) :
    List Nat → List Send
  | [] => []
  | [p] => [⟨p, ⟨id, "set", some payload⟩, transfer⟩]
  | p :: q :: rest => ⟨p, ⟨id, "set", some payload⟩, []⟩ :: sendLoop id payload transfer (q :: rest)

/-- `BaseStore.sendPayload`: returns early when there is no port, otherwise
computes the transfer list (scanning for transferables only when a custom
`encode` is configured) and posts to every port. -/
def sendPayload (opts : ChannelStoreOptions) (id : String) (payload : JValue)
    (ports : List Nat) : List Send :=
  if ports.length = 0 then []
  else
    let transfer := if opts.encode.isSome then getTransferables payload else []
    sendLoop id payload transfer ports

/-- Whether a call of `sendPayload` evaluates `getTransferables` at all:
after the early return for an empty port list, the scan runs exactly when a
custom `encode` is configured. -/
def sendPayloadScans (opts : ChannelStoreOptions) (ports : List Nat) : Bool :=
  ports.length != 0 && opts.encode.isSome

/-- `PrimaryStore` state: the id, the wrapped store's current value, the
attached ports in attach order, and the subscriber `Set` in insertion
order (JS `Set` iteration order). -/
structure PrimaryState where
  id : String
  value : JValue
  ports : List Nat
  subscribers : List Nat
deriving Repr

/-- `Set.add`: appends unless already present (JS `Set` keeps insertion
order and ignores re-insertion). -/
def setAdd (s : List Nat) (p : Nat) : List Nat :=
  if p ∈ s then s else s ++ [p]

/-- `Set.delete`: removes the element, keeping the order of the others. -/
def setDelete (s : List Nat) (p : Nat) : List Nat :=
  s.filter (fun q => q != p)

/-- Result of one `PrimaryStore` operation: the new state, the posted
messages, and how many times the user-supplied `options.encode` and
`options.decode` functions were invoked during the operation. -/
structure PrimaryResult where
  state : PrimaryState
  sends : List Send
  encodeCalls : Nat
  decodeCalls : Nat
deriving Repr

/-- `PrimaryStore.handleMessage`: envelopes whose id does not match are
ignored; `set` decodes the payload, writes the decoded value to the wrapped
store and forwards the received payload to every subscriber except the
originating port; `subscribe` encodes the current value, adds the port to
the subscriber set and sends it one catch-up `set`; `unsubscribe` removes
the port; any other tag throws. -/
def handlePrimaryMessage (opts : ChannelStoreOptions) (st : PrimaryState)
    (port : Nat) (msg : ChannelMessage) : Except String PrimaryResult :=
  if msg.id ≠ st.id then .ok ⟨st, [], 0, 0⟩
  else match msg.type with
    | "set" =>
        let payload := msg.payload.get!
        let value := decodePayload opts payload
        let targets := st.subscribers.filter (fun q => q != port)
        .ok ⟨{st with value := value}, sendPayload opts st.id payload targets,
             0, if opts.decode.isSome then 1 else 0⟩
    | "subscribe" =>
        let payload := encodePayload opts st.value
        .ok ⟨{st with subscribers := setAdd st.subscribers port},
             sendPayload opts st.id payload [port],
             if opts.encode.isSome then 1 else 0, 0⟩
    | "unsubscribe" =>
        .ok ⟨{st with subscribers := setDelete st.subscribers port}, [], 0, 0⟩
    | other => .error ("Unknown message type: " ++ other)

/-- `PrimaryStore.set`: writes the value to the wrapped store, encodes it
and sends the result to every currently subscribed port. -/
def primarySet (opts : ChannelStoreOptions) (st : PrimaryState) (value : JValue) :
    PrimaryResult :=
  ⟨{st with value := value},
   sendPayload opts st.id (encodePayload opts value) st.subscribers,
   if opts.encode.isSome then 1 else 0, 0⟩

/-- `PrimaryStore.attach`: registers the handler and records the port. -/
def primaryAttach (st : PrimaryState) (port : Nat) : PrimaryState :=
  {st with ports := st.ports ++ [port]}

/-- `PrimaryStore.detach`: throws `Port not found` when the port is not in
the attachment list, otherwise removes that entry and drops the port from
the subscriber set. -/
def primaryDetach (st : PrimaryState) (port : Nat) : Except String PrimaryState :=
  match st.ports.findIdx? (fun q => q == port) with
  | none => .error "Port not found"
  | some i => .ok {st with ports := st.ports.eraseIdx i,
                           subscribers := setDelete st.subscribers port}

/-- `ReplicatedStore` state: the id, the mirrored value in the wrapped
store, the optional upstream port, and the local observer reference count
(`numSubscribers` is a JS number, so it is modelled as an integer). -/
structure ReplicaState where
  id : String
  value : JValue
  upstream : Option Nat
  numSubscribers : Int
deriving Repr

/-- Result of `ReplicatedStore.handleMessage`: the new state and the number
of invocations of the user-supplied `options.decode` function. -/
structure ReplicaResult where
  state : ReplicaState
  decodeCalls : Nat
deriving Repr

/-- `ReplicatedStore.handleMessage`: non-matching ids are ignored; `set`
decodes the payload and overwrites the local mirror; `subscribe` and
`unsubscribe` are protocol violations for a replica and throw; any other
tag throws.  A replica handler never posts a message. -/
def handleReplicaMessage (opts : ChannelStoreOptions) (st : ReplicaState)
    (msg : ChannelMessage) : Except String ReplicaResult :=
  if msg.id ≠ st.id then .ok ⟨st, 0⟩
  else match msg.type with
    | "set" =>
        .ok ⟨{st with value := decodePayload opts msg.payload.get!},
             if opts.decode.isSome then 1 else 0⟩
    | "subscribe" => .error "Replicated store got subscription message"
    | "unsubscribe" => .error "Replicated store got subscription message"
    | other => .error ("Unknown message type: " ++ other)

/-- `ReplicatedStore.attach`: throws when an upstream is already present;
otherwise records the upstream and, when the local observer count is
positive, immediately posts a `subscribe` envelope on the new port. -/
def replicaAttach (st : ReplicaState) (port : Nat) :
    Except String (ReplicaState × List Send) :=
  if st.upstream.isSome then .error "Already attached"
  else .ok ({st with upstream := some port},
    if st.numSubscribers > 0 then [⟨port, ⟨st.id, "subscribe", none⟩, []⟩] else [])

/-- `ReplicatedStore.detach`: throws `Port not found` unless the given port
is the current upstream; otherwise posts `unsubscribe` first when the
observer count is positive, then removes the upstream. -/
def replicaDetach (st : ReplicaState) (port : Nat) :
    Except String (ReplicaState × List Send) :=
  match st.upstream with
  | some u =>
      if u = port then
        .ok ({st with upstream := none},
          if st.numSubscribers > 0 then [⟨u, ⟨st.id, "unsubscribe", none⟩, []⟩] else [])
      else .error "Port not found"
  | none => .error "Port not found"

/-- Result of `ReplicatedStore.set`: new state, posted messages, whether
the `not attached` console warning fired, and the number of invocations of
the user-supplied `options.encode` function. -/
structure ReplicaSetResult where
  state : ReplicaState
  sends : List Send
  warned : Bool
  encodeCalls : Nat
deriving Repr

/-- `ReplicatedStore.set`: always writes the value to the local wrapped
store first; when attached it encodes the value and sends it upstream,
when detached it emits a console warning and sends nothing (no throw). -/
def replicaSet (opts : ChannelStoreOptions) (st : ReplicaState) (value : JValue) :
    ReplicaSetResult :=
  let st' := {st with value := value}
  match st.upstream with
  | some u =>
      ⟨st', sendPayload opts st.id (encodePayload opts value) [u], false,
       if opts.encode.isSome then 1 else 0⟩
  | none => ⟨st', [], true, 0⟩

/-- `ReplicatedStore.update`: applies the updater to the current wrapped
value and delegates to `set`. -/
def replicaUpdate (opts : ChannelStoreOptions) (st : ReplicaState)
    (fn : JValue → JValue) : ReplicaSetResult :=
  replicaSet opts st (fn st.value)

/-- `ReplicatedStore.subscribe`: increments the observer count and, when
attached and the count just became 1, posts `subscribe` upstream.  (The
delegation to the wrapped store's own subscribe is the external reactive
container and is not modelled.) -/
def replicaSubscribe (st : ReplicaState) : ReplicaState × List Send :=
  let n := st.numSubscribers + 1
  ({st with numSubscribers := n},
   match st.upstream with
   | some u => if n = 1 then [⟨u, ⟨st.id, "subscribe", none⟩, []⟩] else []
   | none => [])

/-- The unsubscriber closure returned by `ReplicatedStore.subscribe`:
decrements the observer count (with no guard against repeated invocation)
and, when the count just reached 0 and an upstream is attached, posts
`unsubscribe` upstream. -/
def replicaUnsub (st : ReplicaState) : ReplicaState × List Send :=
  let n := st.numSubscribers - 1
  ({st with numSubscribers := n},
   match st.upstream with
   | some u => if n = 0 then [⟨u, ⟨st.id, "unsubscribe", none⟩, []⟩] else []
   | none => [])

/-- One observer-layer event on a replica: a `subscribe(observer)` call, or
an invocation of the unsubscriber returned by the `k`-th subscribe call
(all unsubscriber closures mutate the same counter, so `k` only matters
for well-formedness of a call sequence). -/
inductive ObsOp where
  | observe : ObsOp
  | unsub : Nat → ObsOp
deriving Repr, DecidableEq

/-- Step of the observer layer. -/
def obsStep (st : ReplicaState) : ObsOp → ReplicaState × List Send
  | .observe => replicaSubscribe st
  | .unsub _ => replicaUnsub st

/-- Run a sequence of observer-layer events, collecting all posted
messages. -/
def runObs (st : ReplicaState) : List ObsOp → ReplicaState × List Send
  | [] => (st, [])
  | op :: rest =>
      let r1 := obsStep st op
      let r2 := runObs r1.1 rest
      (r2.1, r1.2 ++ r2.2)

/-- Claim-side notion of a call sequence the spec quantifies over: each
`unsub k` invokes an unsubscriber that an earlier subscribe call issued
(`k` below the number of subscribes so far), with repeated invocation of
the same unsubscriber allowed. -/
def wellFormedObs (issued : Nat) : List ObsOp → Bool
  | [] => true
  | .observe :: rest => wellFormedObs (issued + 1) rest
  | .unsub k :: rest => decide (k < issued) && wellFormedObs issued rest

/-- Disciplined call sequences: each `unsub k` invokes an unsubscriber
issued by an earlier subscribe call and not invoked before (`used` records
the unsubscribers already invoked). -/
def validObs (issued : Nat) (used : List Nat) : List ObsOp → Bool
  | [] => true
  | .observe :: rest => validObs (issued + 1) used rest
  | .unsub k :: rest => decide (k < issued) && decide (k ∉ used) && validObs issued (k :: used) rest


/-- Codec whose encoder and decoder are constant functions, separating
"forward the received payload" from "re-encode the decoded value". -/
def cexOpts : ChannelStoreOptions :=
  ⟨some (fun _ => .str "E"), some (fun _ => .num 7)⟩

/-- A primary with two attached, subscribed ports. -/
def cexPrimary : PrimaryState := ⟨"s", .num 0, [1, 2], [1, 2]⟩

/-- A fresh replica with no upstream and no local observer. -/
def c5Replica : ReplicaState := ⟨"s", .num 0, none, 0⟩

/-- A primary with two attached, subscribed ports 5 and 6. -/
def wPrimary : PrimaryState := ⟨"s", .num 0, [5, 6], [5, 6]⟩

/-- A replica attached on port 5 with one local observer. -/
def wReplicaA : ReplicaState := ⟨"s", .num 0, some 5, 1⟩

/-! ## Helper lemmas about the send loop -/

/-- The send loop posts to exactly the given ports, in order. -/
theorem sendLoop_map_port (id : String) (payload : JValue) (tr : List Nat) :
    ∀ ports : List Nat, (sendLoop id payload tr ports).map (fun s => s.port) = ports
  | [] => by simp [sendLoop]
  | [p] => by simp [sendLoop]
  | p :: q :: rest => by
      simp [sendLoop, sendLoop_map_port id payload tr (q :: rest)]

/-- Every message posted by the send loop is the same `set` envelope. -/
theorem sendLoop_mem_message (id : String) (payload : JValue) (tr : List Nat) :
    ∀ ports : List Nat, ∀ s ∈ sendLoop id payload tr ports,
      s.message = ⟨id, "set", some payload⟩
  | [], s, hs => by simp [sendLoop] at hs
  | [p], s, hs => by simp [sendLoop] at hs; simp [hs]
  | p :: q :: rest, s, hs => by
      simp only [sendLoop, List.mem_cons] at hs
      cases hs with
      | inl h => simp [h]
      | inr h => exact sendLoop_mem_message id payload tr (q :: rest) s h

/-- The send loop passes `tr` only with the final port and an empty list
with every earlier one. -/
theorem sendLoop_map_transfer (id : String) (payload : JValue) (tr : List Nat) :
    ∀ ports : List Nat, ports ≠ [] →
      (sendLoop id payload tr ports).map (fun s => s.transfer) =
        List.replicate (ports.length - 1) [] ++ [tr]
  | [], h => absurd rfl h
  | [p], _ => by simp [sendLoop]
  | p :: q :: rest, _ => by
      simp [sendLoop, sendLoop_map_transfer id payload tr (q :: rest) (by simp),
        List.replicate_succ]

/-- `sendPayload` posts to exactly the given ports, in order. -/
theorem sendPayload_map_port (opts : ChannelStoreOptions) (id : String)
    (payload : JValue) (ports : List Nat) :
    (sendPayload opts id payload ports).map (fun s => s.port) = ports := by
  unfold sendPayload
  by_cases h : ports.length = 0
  · rw [List.length_eq_zero] at h
    simp [h]
  · simp [h, sendLoop_map_port]

/-- Every message posted by `sendPayload` is the same `set` envelope. -/
theorem sendPayload_mem_message (opts : ChannelStoreOptions) (id : String)
    (payload : JValue) (ports : List Nat) :
    ∀ s ∈ sendPayload opts id payload ports, s.message = ⟨id, "set", some payload⟩ := by
  unfold sendPayload
  by_cases h : ports.length = 0
  · simp [h]
  · simp only [h, if_false]
    exact sendLoop_mem_message id payload _ ports

/-- For every target port there is a posted `set` envelope to it. -/
theorem sendPayload_exists_port (opts : ChannelStoreOptions) (id : String)
    (payload : JValue) (ports : List Nat) (p : Nat) (hp : p ∈ ports) :
    ∃ s ∈ sendPayload opts id payload ports,
      s.port = p ∧ s.message = ⟨id, "set", some payload⟩ := by
  have h1 := sendPayload_map_port opts id payload ports
  rw [← h1] at hp
  obtain ⟨s, hs, hsp⟩ := List.mem_map.mp hp
  exact ⟨s, hs, hsp, sendPayload_mem_message opts id payload ports s hs⟩

/-- `sendPayload` to a single port, explicitly. -/
theorem sendPayload_singleton (opts : ChannelStoreOptions) (id : String)
    (payload : JValue) (p : Nat) :
    sendPayload opts id payload [p] =
      [⟨p, ⟨id, "set", some payload⟩,
        if opts.encode.isSome then getTransferables payload else []⟩] := rfl

/-! ## Helper lemmas about the message handlers -/

/-- Unfolding of the primary handler on a matching `set` envelope. -/
theorem handlePrimary_set_eq (opts : ChannelStoreOptions) (st : PrimaryState)
    (port : Nat) (payload : JValue) :
    handlePrimaryMessage opts st port ⟨st.id, "set", some payload⟩ =
      .ok ⟨{st with value := decodePayload opts payload},
           sendPayload opts st.id payload (st.subscribers.filter (fun q => q != port)),
           0, if opts.decode.isSome then 1 else 0⟩ := by
  simp [handlePrimaryMessage]

/-- Unfolding of the primary handler on a matching `subscribe` envelope. -/
theorem handlePrimary_subscribe_eq (opts : ChannelStoreOptions) (st : PrimaryState)
    (port : Nat) :
    handlePrimaryMessage opts st port ⟨st.id, "subscribe", none⟩ =
      .ok ⟨{st with subscribers := setAdd st.subscribers port},
           sendPayload opts st.id (encodePayload opts st.value) [port],
           if opts.encode.isSome then 1 else 0, 0⟩ := by
  simp [handlePrimaryMessage]

/-- Unfolding of the replica handler on a matching `set` envelope. -/
theorem handleReplica_set_eq (opts : ChannelStoreOptions) (st : ReplicaState)
    (payload : JValue) :
    handleReplicaMessage opts st ⟨st.id, "set", some payload⟩ =
      .ok ⟨{st with value := decodePayload opts payload},
           if opts.decode.isSome then 1 else 0⟩ := by
  simp [handleReplicaMessage]

/-- A list of distinct naturals all below `n` has at most `n` elements. -/
theorem length_le_of_nodup_of_lt (l : List Nat) (n : Nat) (hnd : l.Nodup)
    (hlt : ∀ k ∈ l, k < n) : l.length ≤ n := by
  have h1 : l.toFinset ⊆ Finset.range n := by
    intro k hk
    exact Finset.mem_range.mpr (hlt k (List.mem_toFinset.mp hk))
  have h2 := Finset.card_le_card h1
  rw [Finset.card_range] at h2
  rwa [List.toFinset_card_of_nodup hnd] at h2

/-! ## Claim theorems -/

mutual

/-- Auxiliary for C9: the scanner agrees with a depth-first node filter. -/
theorem transferables_df_aux (v : JValue) :
    getTransferables v = (dfNodes v).filterMap bufferOf := by
  cases v <;> simp [getTransferables, dfNodes, bufferOf, transferablesList_df_aux]

/-- Auxiliary for C9, forest version. -/
theorem transferablesList_df_aux (xs : List JValue) :
    getTransferablesList xs = (dfNodesList xs).filterMap bufferOf := by
  cases xs with
  | nil => simp [getTransferablesList, dfNodesList]
  | cons x xs =>
      simp [getTransferablesList, dfNodesList, transferables_df_aux x,
        transferablesList_df_aux xs]

end

/-- C9: for every payload tree built from arrays, plain objects and leaf
values, `getTransferables` returns exactly the values that are literally
`ArrayBuffer` instances, in depth-first traversal order with duplicates
included; typed-array views and all other non-buffer values contribute
nothing (in the model, a view node holds no buffer child, matching the JS
fact that enumerating a typed view yields only numbers). -/
theorem getTransferables_exactly_buffers_depth_first (v : JValue) :
    getTransferables v = (dfNodes v).filterMap bufferOf :=
  transferables_df_aux v

/-- C10: with a custom `encode` configured, a fan-out of one payload to
`n > 0` ports passes the extracted transferables only with the send to the
last port and an empty transfer list with every earlier send (and the scan
runs); with no custom `encode`, no transferable scan is performed and every
send carries an empty transfer list. -/
theorem transfer_list_only_on_last_send (opts : ChannelStoreOptions) (id : String)
    (payload : JValue) (ports : List Nat) :
    (opts.encode.isSome = true → 0 < ports.length →
      (sendPayload opts id payload ports).map (fun s => s.transfer) =
        List.replicate (ports.length - 1) [] ++ [getTransferables payload]
      ∧ sendPayloadScans opts ports = true)
    ∧ (opts.encode = none →
      sendPayloadScans opts ports = false
      ∧ ∀ s ∈ sendPayload opts id payload ports, s.transfer = []) := by
  constructor
  · intro henc hlen
    have hne : ports ≠ [] := by
      intro h
      rw [h] at hlen
      simp at hlen
    constructor
    · unfold sendPayload
      rw [if_neg (by omega), henc]
      simpa using sendLoop_map_transfer id payload (getTransferables payload) ports hne
    · have hne0 : ports.length ≠ 0 := by omega
      simp [sendPayloadScans, henc, hne0]
  · intro henc
    constructor
    · simp [sendPayloadScans, henc]
    · intro s hs
      unfold sendPayload at hs
      by_cases h : ports.length = 0
      · simp [h] at hs
      · rw [if_neg h, henc] at hs
        simp only [Option.isSome_none, Bool.false_eq_true, if_false] at hs
        have h2 := sendLoop_map_transfer id payload [] ports
          (fun hnil => h (by simp [hnil]))
        have h3 : s.transfer ∈ (sendLoop id payload [] ports).map (fun s => s.transfer) :=
          List.mem_map_of_mem _ hs
        rw [h2] at h3
        rcases List.mem_append.mp h3 with h4 | h4
        · exact List.eq_of_mem_replicate h4
        · simpa using h4

/-- C10 witness: two ports with a custom identity encoder on a buffer
payload, and two ports with no encoder. -/
theorem transfer_list_only_on_last_send_witness :
    (⟨some (fun v => v), none⟩ : ChannelStoreOptions).encode.isSome = true
    ∧ 0 < ([1, 2] : List Nat).length
    ∧ (sendPayload ⟨some (fun v => v), none⟩ "s" (.abuf 7) [1, 2]).map (fun s => s.transfer)
        = [[], [7]]
    ∧ sendPayloadScans (⟨none, none⟩ : ChannelStoreOptions) [1, 2] = false := by
  refine ⟨rfl, by decide, ?_, ?_⟩
  · have h := (transfer_list_only_on_last_send ⟨some (fun v => v), none⟩ "s"
      (.abuf 7) [1, 2]).1 rfl (by decide)
    simpa using h.1
  · exact ((transfer_list_only_on_last_send ⟨none, none⟩ "s" (.abuf 7) [1, 2]).2 rfl).1

/-- C3: in every Primary state (hence in every reachable one), fan-out
triggered by receipt of a matching `set` envelope from port `P` targets
exactly the subscribed ports other than `P`, in subscription order, while
fan-out triggered by a local `set` targets exactly all currently subscribed
ports. -/
theorem fanout_excludes_sender_local_set_targets_all (opts : ChannelStoreOptions)
    (st : PrimaryState) (P : Nat) (payload v : JValue) :
    (handlePrimaryMessage opts st P ⟨st.id, "set", some payload⟩).map
        (fun r => r.sends.map (fun s => s.port))
      = .ok (st.subscribers.filter (fun q => q != P))
    ∧ (primarySet opts st v).sends.map (fun s => s.port) = st.subscribers := by
  constructor
  · rw [handlePrimary_set_eq]
    simp [Except.map, sendPayload_map_port]
  · simp [primarySet, sendPayload_map_port]

/-- C2 counterexample: on an inbound `set` from port 1 carrying payload
`"X"`, the primary forwards the original payload `"X"` to port 2 and
invokes `encode` zero times, while re-encoding the decoded value would have
produced `"E"` (and the claim asserts one `encode` invocation).  The claim
as stated is therefore false on the code. -/
theorem primary_inbound_set_reencode_cex :
    handlePrimaryMessage cexOpts cexPrimary 1 ⟨"s", "set", some (.str "X")⟩ =
      .ok ⟨⟨"s", .num 7, [1, 2], [1, 2]⟩, [⟨2, ⟨"s", "set", some (.str "X")⟩, []⟩], 0, 1⟩
    ∧ encodePayload cexOpts (decodePayload cexOpts (.str "X")) = .str "E"
    ∧ (JValue.str "X" = JValue.str "E" → False) := by
  refine ⟨rfl, rfl, ?_⟩
  intro h
  simp at h

/-- C2 amended: for every inbound `set` envelope with matching id from port
`P`, the Primary decodes the payload once, sets the wrapped authoritative
value to the decoded value, and forwards the original received payload
unchanged as a `set` envelope to every currently subscribed port except
`P`; `encode` is invoked zero times for this fan-out, and the configured
`decode` exactly once. -/
theorem primary_inbound_set_forwards_original (opts : ChannelStoreOptions)
    (st : PrimaryState) (P : Nat) (payload : JValue) (r : PrimaryResult)
    (h : handlePrimaryMessage opts st P ⟨st.id, "set", some payload⟩ = .ok r) :
    r.state.value = decodePayload opts payload
    ∧ r.sends.map (fun s => s.port) = st.subscribers.filter (fun q => q != P)
    ∧ (∀ s ∈ r.sends, s.message = ⟨st.id, "set", some payload⟩)
    ∧ r.encodeCalls = 0
    ∧ r.decodeCalls = (if opts.decode.isSome then 1 else 0) := by
  rw [handlePrimary_set_eq] at h
  cases h
  refine ⟨rfl, sendPayload_map_port _ _ _ _, ?_, rfl, rfl⟩
  exact sendPayload_mem_message _ _ _ _

/-- C2 amended, witness: the concrete scenario of the counterexample,
through the amended theorem. -/
theorem primary_inbound_set_forwards_original_witness :
    ([⟨2, ⟨"s", "set", some (.str "X")⟩, []⟩] : List Send).map (fun s => s.port)
      = cexPrimary.subscribers.filter (fun q => q != 1) :=
  (primary_inbound_set_forwards_original cexOpts cexPrimary 1 (.str "X")
    ⟨⟨"s", .num 7, [1, 2], [1, 2]⟩, [⟨2, ⟨"s", "set", some (.str "X")⟩, []⟩], 0, 1⟩
    rfl).2.1

/-- C7: `detach` on a Primary whose attachment list does not hold the port,
and `detach` on a Replica whose upstream is not the given port, both throw
`Port not found`; `attach` on an already-attached Replica throws `Already
attached`.  None of these misuses is silently ignored. -/
theorem attachment_misuse_errors :
    (∀ (st : PrimaryState) (p : Nat), p ∉ st.ports →
      primaryDetach st p = .error "Port not found")
    ∧ (∀ (st : ReplicaState) (p : Nat), st.upstream ≠ some p →
      replicaDetach st p = .error "Port not found")
    ∧ (∀ (st : ReplicaState) (p u : Nat), st.upstream = some u →
      replicaAttach st p = .error "Already attached") := by
  refine ⟨?_, ?_, ?_⟩
  · intro st p hp
    unfold primaryDetach
    have hnone : st.ports.findIdx? (fun q => q == p) = none := by
      rw [List.findIdx?_eq_none_iff]
      intro x hx
      rw [beq_eq_false_iff_ne]
      rintro rfl
      exact hp hx
    rw [hnone]
  · intro st p h
    cases hu : st.upstream with
    | none => simp [replicaDetach, hu]
    | some u =>
        have hne : u ≠ p := by
          rintro rfl
          exact h hu
        simp [replicaDetach, hu, hne]
  · intro st p u h
    simp [replicaAttach, h]

/-- C7 witness: a fresh primary with no ports, a detached replica, and a
replica attached to port 4. -/
theorem attachment_misuse_errors_witness :
    primaryDetach ⟨"s", .num 0, [], []⟩ 3 = .error "Port not found"
    ∧ replicaDetach ⟨"s", .num 0, none, 0⟩ 3 = .error "Port not found"
    ∧ replicaAttach ⟨"s", .num 0, some 4, 0⟩ 5 = .error "Already attached" :=
  ⟨attachment_misuse_errors.1 ⟨"s", .num 0, [], []⟩ 3 (by simp),
   attachment_misuse_errors.2.1 ⟨"s", .num 0, none, 0⟩ 3 (by simp),
   attachment_misuse_errors.2.2 ⟨"s", .num 0, some 4, 0⟩ 5 4 rfl⟩

/-- C8: `set(v)` on a detached Replica writes `v` to the wrapped local
store, emits the warning diagnostic, posts no envelope and throws nothing
(the operation is total); and `update(fn)` applies `fn` to the current
local value and delegates to `set`, inheriting the same behaviour. -/
theorem detached_set_local_only (opts : ChannelStoreOptions) (st : ReplicaState)
    (v : JValue) (fn : JValue → JValue) :
    (st.upstream = none →
      replicaSet opts st v = ⟨{st with value := v}, [], true, 0⟩)
    ∧ replicaUpdate opts st fn = replicaSet opts st (fn st.value) := by
  constructor
  · intro h
    simp [replicaSet, h]
  · rfl

/-- C8 witness: a detached replica accepting a local write. -/
theorem detached_set_local_only_witness :
    replicaSet ⟨none, none⟩ ⟨"s", .num 0, none, 0⟩ (.num 9)
      = ⟨⟨"s", .num 9, none, 0⟩, [], true, 0⟩ :=
  (detached_set_local_only ⟨none, none⟩ ⟨"s", .num 0, none, 0⟩ (.num 9) (fun v => v)).1 rfl

/-- C4: for every inbound `subscribe` envelope with matching id from port
`P`, the Primary adds `P` to its subscription set and immediately sends `P`
exactly one `set` envelope carrying the encoding of the current
authoritative value; a replica on the same id that handles that envelope
(with the codec round-tripping at the current value) observes exactly the
primary's current value, even though the primary never called `set`. -/
theorem primary_inbound_subscribe_catchup (opts : ChannelStoreOptions)
    (st : PrimaryState) (P : Nat) (rep : ReplicaState)
    (hid : rep.id = st.id)
    (hrt : decodePayload opts (encodePayload opts st.value) = st.value) :
    handlePrimaryMessage opts st P ⟨st.id, "subscribe", none⟩ =
      .ok ⟨{st with subscribers := setAdd st.subscribers P},
           [⟨P, ⟨st.id, "set", some (encodePayload opts st.value)⟩,
             if opts.encode.isSome then getTransferables (encodePayload opts st.value) else []⟩],
           if opts.encode.isSome then 1 else 0, 0⟩
    ∧ ∃ rr, handleReplicaMessage opts rep ⟨st.id, "set", some (encodePayload opts st.value)⟩
        = .ok rr ∧ rr.state.value = st.value := by
  constructor
  · rw [handlePrimary_subscribe_eq, sendPayload_singleton]
  · rw [← hid]
    exact ⟨_, handleReplica_set_eq opts rep (encodePayload opts st.value), by simp [hrt]⟩

/-- C4 witness: identity codec, primary value 5, fresh subscriber port 4,
replica attached on port 4. -/
theorem primary_inbound_subscribe_catchup_witness :
    handlePrimaryMessage ⟨none, none⟩ ⟨"s", .num 5, [4], []⟩ 4 ⟨"s", "subscribe", none⟩ =
      .ok ⟨⟨"s", .num 5, [4], [4]⟩, [⟨4, ⟨"s", "set", some (.num 5)⟩, []⟩], 0, 0⟩ :=
  (primary_inbound_subscribe_catchup ⟨none, none⟩ ⟨"s", .num 5, [4], []⟩ 4
    ⟨"s", .num 0, some 4, 1⟩ rfl rfl).1

/-- C1: eventual bidirectional convergence, with "eventually" modelled as
delivery of the generated envelopes (the transport delivers every posted
message).  First conjunct: after a Primary `set(v)` (with the codec
round-tripping at `v`), every subscribed port receives a `set` envelope
whose handling by an attached replica on the same id yields value `v`.
Second conjunct: after a Replica `set(v)`, exactly one envelope goes
upstream; the Primary handling it takes value `v` and fans out to every
other subscribed port, and every other attached replica handling its
envelope also takes value `v`. -/
theorem bidirectional_convergence (opts : ChannelStoreOptions) :
    (∀ (st : PrimaryState) (v : JValue) (rep : ReplicaState) (p : Nat),
      decodePayload opts (encodePayload opts v) = v →
      p ∈ st.subscribers → rep.id = st.id → rep.upstream = some p →
      ∃ s ∈ (primarySet opts st v).sends, s.port = p ∧
        ∃ rr, handleReplicaMessage opts rep s.message = .ok rr ∧ rr.state.value = v)
    ∧ (∀ (st : PrimaryState) (v : JValue) (rep1 : ReplicaState) (q : Nat),
      decodePayload opts (encodePayload opts v) = v →
      rep1.id = st.id → rep1.upstream = some q →
      ∃ s1, (replicaSet opts rep1 v).sends = [s1] ∧ s1.port = q ∧
        ∃ pr, handlePrimaryMessage opts st q s1.message = .ok pr ∧
          pr.state.value = v ∧
          ∀ p ∈ st.subscribers, p ≠ q →
            ∃ s2 ∈ pr.sends, s2.port = p ∧
              ∀ (rep2 : ReplicaState), rep2.id = st.id → rep2.upstream = some p →
                ∃ rr, handleReplicaMessage opts rep2 s2.message = .ok rr
                  ∧ rr.state.value = v) := by
  constructor
  · intro st v rep p hrt hp hid _
    obtain ⟨s, hs, hport, hmsg⟩ :=
      sendPayload_exists_port opts st.id (encodePayload opts v) st.subscribers p hp
    refine ⟨s, hs, hport, ?_⟩
    rw [hmsg, ← hid]
    exact ⟨_, handleReplica_set_eq opts rep (encodePayload opts v), by simp [hrt]⟩
  · intro st v rep1 q hrt hid hup
    refine ⟨⟨q, ⟨rep1.id, "set", some (encodePayload opts v)⟩,
        if opts.encode.isSome then getTransferables (encodePayload opts v) else []⟩,
      ?_, rfl, ?_⟩
    · simp [replicaSet, hup, sendPayload_singleton]
    · rw [hid]
      refine ⟨_, handlePrimary_set_eq opts st q (encodePayload opts v), by simp [hrt], ?_⟩
      intro p hp hpq
      have hp2 : p ∈ st.subscribers.filter (fun x => x != q) := by
        simp [List.mem_filter, hp, hpq]
      obtain ⟨s2, hs2, hs2p, hs2m⟩ :=
        sendPayload_exists_port opts st.id (encodePayload opts v) _ p hp2
      refine ⟨s2, hs2, hs2p, ?_⟩
      intro rep2 hid2 hup2
      rw [hs2m, ← hid2]
      exact ⟨_, handleReplica_set_eq opts rep2 (encodePayload opts v), by simp [hrt]⟩

/-- C1 witness: identity codec; primary with subscribed ports 5 and 6,
writing replica on port 5, value 42. -/
theorem bidirectional_convergence_witness :
    (5 ∈ wPrimary.subscribers)
    ∧ (∃ s ∈ (primarySet ⟨none, none⟩ wPrimary (.num 42)).sends, s.port = 5 ∧
        ∃ rr, handleReplicaMessage ⟨none, none⟩ wReplicaA s.message = .ok rr
          ∧ rr.state.value = .num 42)
    ∧ (∃ s1, (replicaSet ⟨none, none⟩ wReplicaA (.num 42)).sends = [s1] ∧ s1.port = 5 ∧
        ∃ pr, handlePrimaryMessage ⟨none, none⟩ wPrimary 5 s1.message = .ok pr ∧
          pr.state.value = .num 42 ∧
          ∀ p ∈ wPrimary.subscribers, p ≠ 5 →
            ∃ s2 ∈ pr.sends, s2.port = p ∧
              ∀ (rep2 : ReplicaState), rep2.id = wPrimary.id → rep2.upstream = some p →
                ∃ rr, handleReplicaMessage ⟨none, none⟩ rep2 s2.message = .ok rr
                  ∧ rr.state.value = .num 42) :=
  ⟨by decide,
   (bidirectional_convergence ⟨none, none⟩).1 wPrimary (.num 42) wReplicaA 5
     rfl (by decide) rfl rfl,
   (bidirectional_convergence ⟨none, none⟩).2 wPrimary (.num 42) wReplicaA 5
     rfl rfl rfl⟩

/-- C5 counterexample: the unsubscriber closure does not guard against
repeated invocation, so the sequence "subscribe once, invoke the returned
unsubscriber twice" — which the claim explicitly includes — drives the
reference count to −1.  The claim as stated is false on the code. -/
theorem refcount_goes_negative_cex :
    wellFormedObs 0 [ObsOp.observe, ObsOp.unsub 0, ObsOp.unsub 0] = true
    ∧ (runObs c5Replica [ObsOp.observe, ObsOp.unsub 0, ObsOp.unsub 0]).1.numSubscribers < 0 :=
  ⟨rfl, by decide⟩

/-- Auxiliary invariant for C5: along a disciplined call sequence the count
stays `issued − used`, and distinct used tokens below `issued` keep it
non-negative. -/
theorem validObs_count_nonneg :
    ∀ (t : List ObsOp) (issued : Nat) (used : List Nat) (st : ReplicaState),
      validObs issued used t = true →
      st.numSubscribers = (issued : Int) - used.length →
      used.Nodup → (∀ k ∈ used, k < issued) →
      ∀ n, 0 ≤ (runObs st (t.take n)).1.numSubscribers
  | [], issued, used, st, _, hc, hnd, hbd, n => by
      have hle := length_le_of_nodup_of_lt used issued hnd hbd
      rw [List.take_nil]
      show 0 ≤ st.numSubscribers
      omega
  | op :: rest, issued, used, st, hv, hc, hnd, hbd, n => by
      cases n with
      | zero =>
          have hle := length_le_of_nodup_of_lt used issued hnd hbd
          rw [List.take_zero]
          show 0 ≤ st.numSubscribers
          omega
      | succ n =>
          rw [List.take_succ_cons]
          cases op with
          | observe =>
              have hv' : validObs (issued + 1) used rest = true := hv
              show 0 ≤ (runObs (obsStep st .observe).1 (rest.take n)).1.numSubscribers
              refine validObs_count_nonneg rest (issued + 1) used _ hv' ?_ hnd
                (fun k hk => Nat.lt_succ_of_lt (hbd k hk)) n
              show st.numSubscribers + 1 = ((issued + 1 : Nat) : Int) - used.length
              push_cast
              omega
          | unsub k =>
              have hv' := hv
              simp only [validObs, Bool.and_eq_true, decide_eq_true_eq] at hv'
              obtain ⟨⟨hk, hknot⟩, hrest⟩ := hv'
              show 0 ≤ (runObs (obsStep st (.unsub k)).1 (rest.take n)).1.numSubscribers
              refine validObs_count_nonneg rest issued (k :: used) _ hrest ?_
                (List.nodup_cons.mpr ⟨hknot, hnd⟩) ?_ n
              · show st.numSubscribers - 1 = (issued : Int) - (k :: used).length
                simp only [List.length_cons]
                push_cast
                omega
              · intro j hj
                rcases List.mem_cons.mp hj with h | h
                · exact h ▸ hk
                · exact hbd j h

/-- C5 amended: starting from a replica with zero observers, every
disciplined sequence of `subscribe(observer)` calls and invocations of the
unsubscribers they return — each unsubscriber invoked at most once, in any
order — keeps the reference count non-negative in every intermediate state.
(Repeated invocation of the same unsubscriber, which the original claim
included, drives the count negative: see the counterexample.) -/
theorem refcount_nonneg_disciplined (st : ReplicaState) (t : List ObsOp)
    (h0 : st.numSubscribers = 0) (hv : validObs 0 [] t = true) (n : Nat) :
    0 ≤ (runObs st (t.take n)).1.numSubscribers :=
  validObs_count_nonneg t 0 [] st hv (by simp [h0]) List.nodup_nil (by simp) n

/-- C5 amended, witness: two subscribes followed by both unsubscribers,
each invoked once, in reverse order. -/
theorem refcount_nonneg_disciplined_witness :
    c5Replica.numSubscribers = 0
    ∧ validObs 0 [] [ObsOp.observe, ObsOp.observe, ObsOp.unsub 1, ObsOp.unsub 0] = true
    ∧ 0 ≤ (runObs c5Replica
        ([ObsOp.observe, ObsOp.observe, ObsOp.unsub 1, ObsOp.unsub 0].take 4)).1.numSubscribers :=
  ⟨rfl, rfl,
   refcount_nonneg_disciplined c5Replica
     [ObsOp.observe, ObsOp.observe, ObsOp.unsub 1, ObsOp.unsub 0] rfl rfl 4⟩

/-- C6: for an attached replica, an observer-count transition 0→1 posts
exactly one `subscribe` upstream and a transition 1→0 posts exactly one
`unsubscribe`; while the count stays 0, no operation posts a `subscribe`
(attach and detach post nothing, a local `set` posts only `set` envelopes,
and the replica message handler never posts); and `attach` while the count
is already positive immediately posts one `subscribe` on the new port. -/
theorem refcount_gating (st : ReplicaState) (u : Nat) (opts : ChannelStoreOptions)
    (v : JValue) :
    (st.upstream = some u → st.numSubscribers = 0 →
      (replicaSubscribe st).2 = [⟨u, ⟨st.id, "subscribe", none⟩, []⟩])
    ∧ (st.upstream = some u → st.numSubscribers = 1 →
      (replicaUnsub st).2 = [⟨u, ⟨st.id, "unsubscribe", none⟩, []⟩])
    ∧ (st.upstream = none → st.numSubscribers = 0 →
      replicaAttach st u = .ok ({st with upstream := some u}, []))
    ∧ (st.upstream = some u → st.numSubscribers = 0 →
      replicaDetach st u = .ok ({st with upstream := none}, []))
    ∧ (∀ s ∈ (replicaSet opts st v).sends, s.message.type = "set")
    ∧ (st.upstream = none → 0 < st.numSubscribers →
      replicaAttach st u = .ok ({st with upstream := some u},
        [⟨u, ⟨st.id, "subscribe", none⟩, []⟩])) := by
  refine ⟨?_, ?_, ?_, ?_, ?_, ?_⟩
  · intro h1 h2
    simp [replicaSubscribe, h1, h2]
  · intro h1 h2
    simp [replicaUnsub, h1, h2]
  · intro h1 h2
    simp [replicaAttach, h1, h2]
  · intro h1 h2
    simp [replicaDetach, h1, h2]
  · intro s hs
    cases hu : st.upstream with
    | none => simp [replicaSet, hu] at hs
    | some w =>
        simp only [replicaSet, hu] at hs
        have hm := sendPayload_mem_message opts st.id (encodePayload opts v) [w] s hs
        rw [hm]
  · intro h1 h2
    simp [replicaAttach, h1, h2]

/-- C6 witness: transitions 0→1 and 1→0 on a replica attached to port 7,
and attaches with counts 0 and 2. -/
theorem refcount_gating_witness :
    (replicaSubscribe ⟨"s", .num 0, some 7, 0⟩).2 = [⟨7, ⟨"s", "subscribe", none⟩, []⟩]
    ∧ (replicaUnsub ⟨"s", .num 0, some 7, 1⟩).2 = [⟨7, ⟨"s", "unsubscribe", none⟩, []⟩]
    ∧ replicaAttach ⟨"s", .num 0, none, 0⟩ 7 = .ok (⟨"s", .num 0, some 7, 0⟩, [])
    ∧ replicaAttach ⟨"s", .num 0, none, 2⟩ 7
        = .ok (⟨"s", .num 0, some 7, 2⟩, [⟨7, ⟨"s", "subscribe", none⟩, []⟩]) :=
  ⟨(refcount_gating ⟨"s", .num 0, some 7, 0⟩ 7 ⟨none, none⟩ (.num 0)).1 rfl rfl,
   (refcount_gating ⟨"s", .num 0, some 7, 1⟩ 7 ⟨none, none⟩ (.num 0)).2.1 rfl rfl,
   (refcount_gating ⟨"s", .num 0, none, 0⟩ 7 ⟨none, none⟩ (.num 0)).2.2.1 rfl rfl,
   (refcount_gating ⟨"s", .num 0, none, 2⟩ 7 ⟨none, none⟩ (.num 0)).2.2.2.2.2 rfl (by decide)⟩
